import Mathlib

/-!
Shallow embedding of the FlipDish MCP ordering app core:
the session store (state.ts), the backend gateway facade (flipdish-client.ts)
and the tool executor / retry wrapper / protocol boundary (main server file).

Modelling conventions:
- The remote backend is an environment value (`Backend`): one response
  function per gateway operation.  Thrown JS errors are `Except.error`
  carrying an `Err` with the message string.
- The executor is a pure function threading the `SessionState` explicitly and
  emitting a trace (`List Call`) of the backend operations it invoked, so
  that "operation X is never called" is a statement about the trace.
- JS string falsiness (`!s` true for both null and "") is `strOptFalsy`;
  `x || d` on strings is `jsOr` / `orUndef`.
- Prices are integers (no price arithmetic occurs in the executor beyond
  the literal 0 of clear_basket); `toFixed(2)` display formatting is
  abstracted as `toString`.
-/

/-- JS truthiness test for a `string | null` value: null and "" are falsy. -/
def strOptFalsy : Option String → Bool
  | none => true
  | some s => s.isEmpty

/-- JS `a || d` for a possibly-absent string: falsy (absent or empty) yields the default. -/
def jsOr (o : Option String) (d : String) : String :=
  match o with
  | none => d
  | some s => if s.isEmpty then d else s

/-- JS `token || undefined`: an empty-string token is passed on as undefined. -/
def orUndef (o : Option String) : Option String :=
  match o with
  | none => none
  | some s => if s.isEmpty then none else some s

/-- JS template-literal rendering of a possibly-undefined string. -/
def optToStrJS : Option String → String
  | none => "undefined"
  | some s => s

/-- Does `pat` occur as a contiguous sublist of the second argument? -/
def charsInfix (pat : List Char) : List Char → Bool
  | [] => pat.isEmpty
  | c :: rest => pat.isPrefixOf (c :: rest) || charsInfix pat rest

/-- JS `String.prototype.includes`: `pat` occurs as a contiguous substring of `s`. -/
def strIncludes (s pat : String) : Bool :=
  charsInfix pat.data s.data

/-- A thrown JS `Error`, reduced to its message. -/
structure Err where
  message : String
deriving DecidableEq, Repr

/-- A menu item as used by the executor: id for membership validation, name for display. -/
structure MenuItem where
  menuItemId : Int
  name : String
  price : Int
deriving DecidableEq, Repr

/-- A line of the remote basket (`basketMenuItems` entries). -/
structure BasketItem where
  menuItemId : Int
  name : String
  price : Int
  quantity : Int
deriving DecidableEq, Repr

/-- The remote basket shape consumed by the executor. -/
structure Basket where
  basketMenuItems : List BasketItem
  totalPrice : Int
deriving DecidableEq, Repr

/-- state.ts `SessionState`: chatId/authToken/phoneNumber plus the last search results. -/
structure SessionState where
  chatId : Option String
  authToken : Option String
  phoneNumber : Option String
  searchResults : List MenuItem
deriving DecidableEq, Repr

/-- state.ts default state (also the fallback when the cache file is unusable). -/
def defaultState : SessionState :=
  { chatId := none, authToken := none, phoneNumber := none, searchResults := [] }

/-- state.ts `setChatId`. -/
def setChatId (chatId : String) (s : SessionState) : SessionState :=
  { s with chatId := some chatId }

/-- state.ts `setAuthToken`: writes token and phone number in one step. -/
def setAuthToken (token phone : String) (s : SessionState) : SessionState :=
  { s with authToken := some token, phoneNumber := some phone }

/-- state.ts `clearAuth`: unsets token and phone number together. -/
def clearAuth (s : SessionState) : SessionState :=
  { s with authToken := none, phoneNumber := none }

/-- state.ts `setSearchResults`. -/
def setSearchResults (results : List MenuItem) (s : SessionState) : SessionState :=
  { s with searchResults := results }

/-- state.ts `isAuthenticated`: `!!state.authToken` (empty string is falsy). -/
def isAuthenticated (s : SessionState) : Bool :=
  !(strOptFalsy s.authToken)

/-- A parsed durable snapshot: each key may be absent (outer `none`) or hold a value,
    mirroring a JSON object spread over the default state. -/
structure CachedState where
  chatId : Option (Option String)
  authToken : Option (Option String)
  phoneNumber : Option (Option String)
  searchResults : Option (List MenuItem)
deriving DecidableEq, Repr

/-- state.ts `saveState`: the snapshot written by `JSON.stringify(state)` carries every key. -/
def snapshotOf (s : SessionState) : CachedState :=
  { chatId := some s.chatId
    authToken := some s.authToken
    phoneNumber := some s.phoneNumber
    searchResults := some s.searchResults }

/-- The JS object spread `{ ...base, ...c }`: keys present in `c` win. -/
def spreadMerge (base : SessionState) (c : CachedState) : SessionState :=
  { chatId := c.chatId.getD base.chatId
    authToken := c.authToken.getD base.authToken
    phoneNumber := c.phoneNumber.getD base.phoneNumber
    searchResults := c.searchResults.getD base.searchResults }

/-- The three states of the durable cache file at startup. -/
inductive CacheFile
  | absent
  | malformed
  | valid (c : CachedState)
deriving DecidableEq, Repr

/-- state.ts startup load: existing parseable snapshot is merged over the default
    state; a missing file or a parse failure (caught) leaves the defaults. -/
def loadState : CacheFile → SessionState
  | .absent => defaultState
  | .malformed => defaultState
  | .valid c => spreadMerge defaultState c

/-- flipdish-client.ts `createSession` response shape. -/
structure CreateSessionResult where
  chatId : String
  basket : Option Basket
deriving DecidableEq, Repr

/-- The two tolerated wire shapes of the remote searchMenu response: a bare
    array, an object with an items field, or an object whose items field is
    missing/falsy. -/
inductive SearchWire
  | arr (items : List MenuItem)
  | objWithItems (items : List MenuItem)
  | objNoItems
deriving DecidableEq, Repr

/-- flipdish-client.ts `searchMenu` normalization:
    `Array.isArray(result) ? result : (result.items || [])`. -/
def normalizeSearchResponse : SearchWire → List MenuItem
  | .arr items => items
  | .objWithItems items => items
  | .objNoItems => []

/-- flipdish-client.ts `submitOrder` response shape. -/
structure SubmitResult where
  success : Bool
  orderId : Option String
  leadTimePrompt : Option String
  error : Option String
deriving DecidableEq, Repr

/-- flipdish-client.ts `sendOTP` response shape. -/
structure OtpResult where
  success : Bool
  error : Option String
deriving DecidableEq, Repr

/-- flipdish-client.ts `verifyOTP` response shape. -/
structure VerifyResult where
  success : Bool
  token : Option String
  error : Option String
deriving DecidableEq, Repr

/-- The updateBasket payload: `{addMenuItems: [...]}` or `{removeMenuItems: [...]}`. -/
inductive BasketUpdate
  | add (menuItemId : Int) (quantity : Int) (options : Option (List Int))
  | remove (menuItemId : Int) (quantity : Int)
deriving DecidableEq, Repr

/-- The remote backend as an environment: one response function per gateway
    operation, each possibly throwing (`Except.error`).  Argument lists follow
    flipdish-client.ts (chatId, payload, optional bearer token). -/
structure Backend where
  createSession : Except Err CreateSessionResult
  searchMenu : String → String → Option String → Except Err SearchWire
  getBasket : String → Option String → Except Err Basket
  updateBasket : String → BasketUpdate → Option String → Except Err Unit
  clearBasket : String → Option String → Except Err Unit
  submitOrder : String → String → Option Int → Except Err SubmitResult
  sendOTP : String → Except Err OtpResult
  verifyOTP : String → String → String → Except Err VerifyResult

/-- flipdish-client.ts `searchMenu`: raw call then wire-shape normalization. -/
def flipdishSearchMenu (b : Backend) (chatId query : String) (token : Option String) :
    Except Err (List MenuItem) :=
  match b.searchMenu chatId query token with
  | .error e => .error e
  | .ok wire => .ok (normalizeSearchResponse wire)

/-- Trace entry: one backend gateway invocation with its key arguments. -/
inductive Call
  | createSession
  | searchMenu (chatId query : String)
  | getBasket (chatId : String)
  | updateBasket (chatId : String) (upd : BasketUpdate)
  | clearBasket (chatId : String)
  | submitOrder (chatId token : String)
  | sendOTP (phoneNumber : String)
  | verifyOTP (phoneNumber code : String)
deriving DecidableEq, Repr

/-- Is this trace entry the order-submission gateway call? -/
def Call.isSubmitOrderCall : Call → Bool
  | .submitOrder _ _ => true
  | _ => false

/-- Is this trace entry the basket re-fetch gateway call? -/
def Call.isGetBasketCall : Call → Bool
  | .getBasket _ => true
  | _ => false

/-- Is this trace entry a basket mutation (updateBasket)? -/
def Call.isUpdateBasketCall : Call → Bool
  | .updateBasket _ _ => true
  | _ => false

/-- The structured result payloads built by the executor, one constructor per
    JSON shape occurring in the source. -/
inductive Structured
  | items (items : List MenuItem)
  | basketAdd (basket : Basket) (menuItemId : Int) (quantity : Int) (itemName : String)
  | basketOnly (basket : Basket)
  | basketRemove (basket : Basket)
  | authRequired (error : String) (message : String)
  | orderSuccess (success : Bool) (orderId : Option String) (leadTimePrompt : Option String)
  | authenticated (authenticated : Bool) (phoneNumber : String)
deriving DecidableEq, Repr

/-- The `error` field of a structured result, when its shape carries one. -/
def Structured.errorField : Structured → Option String
  | .authRequired e _ => some e
  | _ => none

/-- A tool result: text contents, optional structured payload, optional
    `openai/outputTemplate` widget directive, and the boundary's isError flag. -/
structure ToolResult where
  content : List String
  structuredContent : Option Structured
  meta : Option String
  isError : Bool
deriving DecidableEq, Repr

/-- Widget URI constants from the server file. -/
def WIDGET_URI : String := "ui://widgets/menu-carousel"

/-- Login widget URI. -/
def LOGIN_WIDGET_URI : String := "ui://widgets/login"

/-- Basket widget URI. -/
def BASKET_WIDGET_URI : String := "ui://widgets/basket"

/-- Raw tool-call arguments: each field optional, typed as the zod schemas
    require; `none` means the key is missing (zod then rejects when required). -/
structure RawArgs where
  query : Option String
  menuItemId : Option Int
  quantity : Option Int
  menuItemOptionSetItems : Option (List Int)
  paymentAccountId : Option Int
  phoneNumber : Option String
  code : Option String
deriving DecidableEq, Repr

/-- The empty argument object (`request.params.arguments ?? {}`). -/
def noArgs : RawArgs :=
  { query := none, menuItemId := none, quantity := none, menuItemOptionSetItems := none
    paymentAccountId := none, phoneNumber := none, code := none }

/-- A zod parse failure for a missing required field (message abstracted). -/
def zodErr (field : String) : Err :=
  { message := "Invalid arguments: missing " ++ field }

/-- Outcome of one executor run: thrown error or result, final state, backend trace. -/
abbrev ToolOutcome := Except Err ToolResult × SessionState × List Call

/-- server `ensureSession`: when the stored chatId is falsy (absent or the
    empty string), create a guest backend session and store its id. -/
def ensureSession (b : Backend) (s : SessionState) :
    Except Err String × SessionState × List Call :=
  if strOptFalsy s.chatId then
    match b.createSession with
    | .error e => (.error e, s, [Call.createSession])
    | .ok result => (.ok result.chatId, setChatId result.chatId s, [Call.createSession])
  else
    match s.chatId with
    | some c => (.ok c, s, [])
    | none => (.error { message := "unreachable" }, s, [])

/-- The add_to_basket validation against the last search results
    (lines: if searchResults.length > 0 ... throw Invalid menuItemId). -/
def addToBasketCheck (searchResults : List MenuItem) (menuItemId : Int) : Option Err :=
  if searchResults.length > 0 then
    let validIds := searchResults.map (fun item => item.menuItemId)
    if !(validIds.contains menuItemId) then
      some { message := "Invalid menuItemId. Valid IDs: " ++
               String.intercalate ", " (validIds.map toString) }
    else none
  else none

/-- The literal response object returned by submit_order when no token is held. -/
def authRequiredResponse : ToolResult :=
  { content := ["Please authenticate to continue."]
    structuredContent := some (.authRequired "authentication_required"
      "Authentication widget opened. Please log in using the form.")
    meta := some LOGIN_WIDGET_URI
    isError := false }

/-- The forward path of add_to_basket after validation passed:
    updateBasket with addMenuItems, basket re-fetch, display-name lookup. -/
def addToBasketProceed (b : Backend) (chatId : String) (s : SessionState) (cs : List Call)
    (menuItemId quantity : Int) (options : Option (List Int)) : ToolOutcome :=
  let token := s.authToken
  let upd := BasketUpdate.add menuItemId quantity options
  match b.updateBasket chatId upd (orUndef token) with
  | .error e => (.error e, s, cs ++ [Call.updateBasket chatId upd])
  | .ok _ =>
    match b.getBasket chatId (orUndef token) with
    | .error e => (.error e, s, cs ++ [Call.updateBasket chatId upd, Call.getBasket chatId])
    | .ok basket =>
      let addedItem := basket.basketMenuItems.find? (fun item => item.menuItemId == menuItemId)
      let itemName := match addedItem with
        | some it => it.name
        | none => "item"
      (.ok { content := ["Added " ++ toString quantity ++ "x " ++ itemName ++ " to basket"]
             structuredContent := some (.basketAdd basket menuItemId quantity itemName)
             meta := none
             isError := false },
       s, cs ++ [Call.updateBasket chatId upd, Call.getBasket chatId])

/-- The body of the executor switch over the tool name (executeToolInternal
    after `ensureSession` succeeded and the auth token was read). -/
def dispatchTool (b : Backend) (chatId : String) (s : SessionState) (cs : List Call)
    (name : String) (args : RawArgs) : ToolOutcome :=
  -- the source binds `const token = state.getAuthToken()` once; here the
  -- field read `s.authToken` is written inline at each use site
  if name = "search_menu" then
    match args.query with
    | none => (.error (zodErr "query"), s, cs)
    | some query =>
      match flipdishSearchMenu b chatId query (orUndef s.authToken) with
      | .error e => (.error e, s, cs ++ [Call.searchMenu chatId query])
      | .ok items =>
        (.ok { content := ["Found " ++ toString items.length ++ " menu items"]
               structuredContent := some (.items items)
               meta := some WIDGET_URI
               isError := false },
         setSearchResults items s, cs ++ [Call.searchMenu chatId query])
  else if name = "add_to_basket" then
    match args.menuItemId with
    | none => (.error (zodErr "menuItemId"), s, cs)
    | some menuItemId =>
      let quantity := args.quantity.getD 1
      match addToBasketCheck s.searchResults menuItemId with
      | some e => (.error e, s, cs)
      | none => addToBasketProceed b chatId s cs menuItemId quantity args.menuItemOptionSetItems
  else if name = "view_basket" then
    match b.getBasket chatId (orUndef s.authToken) with
    | .error e => (.error e, s, cs ++ [Call.getBasket chatId])
    | .ok basket =>
      let items := basket.basketMenuItems
      let total := basket.totalPrice
      (.ok { content := ["Basket contains " ++ toString items.length ++
               " items (EUR " ++ toString total ++ ")"]
             structuredContent := some (.basketOnly basket)
             meta := some BASKET_WIDGET_URI
             isError := false },
       s, cs ++ [Call.getBasket chatId])
  else if name = "remove_from_basket" then
    match args.menuItemId with
    | none => (.error (zodErr "menuItemId"), s, cs)
    | some menuItemId =>
      let quantity := args.quantity.getD 1
      let upd := BasketUpdate.remove menuItemId quantity
      match b.updateBasket chatId upd (orUndef s.authToken) with
      | .error e => (.error e, s, cs ++ [Call.updateBasket chatId upd])
      | .ok _ =>
        match b.getBasket chatId (orUndef s.authToken) with
        | .error e => (.error e, s, cs ++ [Call.updateBasket chatId upd, Call.getBasket chatId])
        | .ok basket =>
          (.ok { content := ["Removed " ++ toString quantity ++ "x item from basket"]
                 structuredContent := some (.basketRemove basket)
                 meta := some BASKET_WIDGET_URI
                 isError := false },
           s, cs ++ [Call.updateBasket chatId upd, Call.getBasket chatId])
  else if name = "clear_basket" then
    match b.clearBasket chatId (orUndef s.authToken) with
    | .error e => (.error e, s, cs ++ [Call.clearBasket chatId])
    | .ok _ =>
      (.ok { content := ["Basket cleared"]
             structuredContent := some (.basketOnly { basketMenuItems := [], totalPrice := 0 })
             meta := none
             isError := false },
       s, cs ++ [Call.clearBasket chatId])
  else if name = "submit_order" then
    match s.authToken with
    | none => (.ok authRequiredResponse, s, cs)
    | some t =>
      if t.isEmpty then (.ok authRequiredResponse, s, cs)
      else
        match b.submitOrder chatId t args.paymentAccountId with
        | .error e => (.error e, s, cs ++ [Call.submitOrder chatId t])
        | .ok result =>
          if !result.success then
            (.error { message := jsOr result.error "Order submission failed" },
             s, cs ++ [Call.submitOrder chatId t])
          else
            (.ok { content := [jsOr result.leadTimePrompt
                     ("Order placed! Order ID: " ++ optToStrJS result.orderId)]
                   structuredContent := some (.orderSuccess true result.orderId result.leadTimePrompt)
                   meta := none
                   isError := false },
             s, cs ++ [Call.submitOrder chatId t])
  else if name = "send_otp" then
    match args.phoneNumber with
    | none => (.error (zodErr "phoneNumber"), s, cs)
    | some phoneNumber =>
      match b.sendOTP phoneNumber with
      | .error e => (.error e, s, cs ++ [Call.sendOTP phoneNumber])
      | .ok result =>
        if !result.success then
          (.error { message := jsOr result.error "Failed to send OTP" },
           s, cs ++ [Call.sendOTP phoneNumber])
        else
          (.ok { content := ["OTP sent to " ++ phoneNumber]
                 structuredContent := none
                 meta := some LOGIN_WIDGET_URI
                 isError := false },
           s, cs ++ [Call.sendOTP phoneNumber])
  else if name = "verify_otp" then
    match args.phoneNumber, args.code with
    | some phoneNumber, some code =>
      match b.verifyOTP phoneNumber code chatId with
      | .error e => (.error e, s, cs ++ [Call.verifyOTP phoneNumber code])
      | .ok result =>
        if !result.success || strOptFalsy result.token then
          (.error { message := jsOr result.error "OTP verification failed" },
           s, cs ++ [Call.verifyOTP phoneNumber code])
        else
          match result.token with
          | some t =>
            (.ok { content := ["Authentication successful!"]
                   structuredContent := some (.authenticated true phoneNumber)
                   meta := some LOGIN_WIDGET_URI
                   isError := false },
             setAuthToken t phoneNumber s, cs ++ [Call.verifyOTP phoneNumber code])
          | none =>
            (.error { message := jsOr result.error "OTP verification failed" },
             s, cs ++ [Call.verifyOTP phoneNumber code])
    | _, _ => (.error (zodErr "phoneNumber, code"), s, cs)
  else
    (.error { message := "Unknown tool: " ++ name }, s, cs)

/-- server `executeToolInternal`: ensure the session, read the token, dispatch. -/
def executeToolInternal (b : Backend) (s0 : SessionState) (name : String) (args : RawArgs) :
    ToolOutcome :=
  match ensureSession b s0 with
  | (.error e, s, cs) => (.error e, s, cs)
  | (.ok chatId, s, cs) => dispatchTool b chatId s cs name args

/-- server `executeTool`: single-shot retry when the thrown message is truthy
    and contains the "Call context not found" session-expiry marker; the
    chatId is reset to "" before the one retry, and the retry's outcome
    (success or error) is returned as-is. -/
def executeTool (b : Backend) (s : SessionState) (name : String) (args : RawArgs) :
    ToolOutcome :=
  match executeToolInternal b s name args with
  | (.ok r, s1, cs) => (.ok r, s1, cs)
  | (.error e, s1, cs) =>
    if !e.message.isEmpty && strIncludes e.message "Call context not found" then
      let retry := executeToolInternal b (setChatId "" s1) name args
      (retry.1, retry.2.1, cs ++ retry.2.2)
    else
      (.error e, s1, cs)

/-- server CallToolRequest handler: run the tool; convert any thrown error to
    an isError result carrying the message.  Totality of this function is the
    model of "the handler itself never throws". -/
def handleCallTool (b : Backend) (s : SessionState) (name : String) (args : RawArgs) :
    ToolResult × SessionState × List Call :=
  match executeTool b s name args with
  | (.ok r, s1, cs) => (r, s1, cs)
  | (.error e, s1, cs) =>
    ({ content := ["Error: " ++ e.message]
       structuredContent := none
       meta := none
       isError := true },
     s1, cs)

/-! ### Test fixtures: concrete menu items, states and backends used by witnesses -/

/-- A concrete menu item. -/
def pizzaItem : MenuItem := { menuItemId := 1, name := "Pizza", price := 12 }

/-- A second concrete menu item. -/
def burgerItem : MenuItem := { menuItemId := 2, name := "Burger", price := 9 }

/-- A third concrete menu item. -/
def saladItem : MenuItem := { menuItemId := 3, name := "Salad", price := 7 }

/-- A backend where every operation succeeds with fixed data. -/
def okBackend : Backend :=
  { createSession := .ok { chatId := "chat1", basket := none }
    searchMenu := fun _ q _ =>
      if q = "bare" then .ok (.arr [pizzaItem, burgerItem, saladItem])
      else if q = "wrapped" then .ok (.objWithItems [pizzaItem, burgerItem, saladItem])
      else .ok .objNoItems
    getBasket := fun _ _ => .ok { basketMenuItems := [], totalPrice := 0 }
    updateBasket := fun _ _ _ => .ok ()
    clearBasket := fun _ _ => .ok ()
    submitOrder := fun _ _ _ =>
      .ok { success := true, orderId := some "ord9", leadTimePrompt := none, error := none }
    sendOTP := fun _ => .ok { success := true, error := none }
    verifyOTP := fun _ _ _ => .ok { success := true, token := some "tok7", error := none } }

/-! ### Frame lemmas about `ensureSession` -/

/-- `ensureSession` touches only the chatId field of the session store. -/
theorem ensureSession_frame (b : Backend) (s : SessionState) :
    (ensureSession b s).2.1.authToken = s.authToken ∧
    (ensureSession b s).2.1.phoneNumber = s.phoneNumber ∧
    (ensureSession b s).2.1.searchResults = s.searchResults := by
  unfold ensureSession
  split
  · cases b.createSession <;> simp [setChatId]
  · cases h : s.chatId <;> simp

/-- The only backend call `ensureSession` can make is createSession. -/
theorem ensureSession_calls (b : Backend) (s : SessionState) :
    ∀ c ∈ (ensureSession b s).2.2, c = Call.createSession := by
  unfold ensureSession
  split
  · cases b.createSession <;> simp
  · cases h : s.chatId <;> simp

/-! ### C6 — durable snapshot round-trip and fallback -/

/-- C6: restoring a persisted full snapshot (merged over the default-empty
    state) reproduces the identical session state, and a missing or malformed
    snapshot file falls back to the all-empty default state without failing. -/
theorem snapshot_roundtrip_and_fallback :
    (∀ s : SessionState, loadState (CacheFile.valid (snapshotOf s)) = s) ∧
    loadState CacheFile.absent = defaultState ∧
    loadState CacheFile.malformed = defaultState :=
  ⟨fun _ => rfl, rfl, rfl⟩

/-! ### C8 — searchMenu wire-shape normalization -/

/-- C8: the gateway searchMenu normalization maps a bare item sequence to
    itself, an object wrapping the sequence in an items field to the same
    sequence, and an object without items to the empty sequence; the two
    populated wire shapes normalize identically. -/
theorem searchMenu_wire_normalization :
    ∀ (b : Backend) (chatId query : String) (tok : Option String) (items : List MenuItem),
      (b.searchMenu chatId query tok = .ok (.arr items) →
        flipdishSearchMenu b chatId query tok = .ok items) ∧
      (b.searchMenu chatId query tok = .ok (.objWithItems items) →
        flipdishSearchMenu b chatId query tok = .ok items) ∧
      (b.searchMenu chatId query tok = .ok .objNoItems →
        flipdishSearchMenu b chatId query tok = .ok []) ∧
      normalizeSearchResponse (.arr items) = normalizeSearchResponse (.objWithItems items) := by
  intro b c q t items
  refine ⟨fun h => ?_, fun h => ?_, fun h => ?_, rfl⟩ <;>
    simp [flipdishSearchMenu, h, normalizeSearchResponse]

/-- C8 witness: concrete evaluation of the three wire shapes on a test backend. -/
theorem searchMenu_wire_normalization_witness :
    flipdishSearchMenu okBackend "c" "bare" none = .ok [pizzaItem, burgerItem, saladItem] ∧
    flipdishSearchMenu okBackend "c" "wrapped" none = .ok [pizzaItem, burgerItem, saladItem] ∧
    flipdishSearchMenu okBackend "c" "absent" none = .ok [] :=
  ⟨(searchMenu_wire_normalization okBackend "c" "bare" none [pizzaItem, burgerItem, saladItem]).1 rfl,
   (searchMenu_wire_normalization okBackend "c" "wrapped" none
     [pizzaItem, burgerItem, saladItem]).2.1 rfl,
   (searchMenu_wire_normalization okBackend "c" "absent" none []).2.2.1 rfl⟩

/-! ### C7 — clear_basket reports the fixed empty basket without a re-fetch -/

/-- C7: a successful clear_basket returns the literal empty basket shape
    (no items, zero total) whatever the backend basket held, and the trace
    contains no getBasket re-fetch. -/
theorem clear_basket_reports_empty_basket :
    ∀ (b : Backend) (s : SessionState) (args : RawArgs) (cid : String)
      (s1 : SessionState) (cs1 : List Call),
      ensureSession b s = (.ok cid, s1, cs1) →
      b.clearBasket cid (orUndef s1.authToken) = .ok () →
      executeToolInternal b s "clear_basket" args =
        (.ok { content := ["Basket cleared"]
               structuredContent := some (.basketOnly { basketMenuItems := [], totalPrice := 0 })
               meta := none, isError := false },
         s1, cs1 ++ [Call.clearBasket cid]) ∧
      ∀ c ∈ cs1 ++ [Call.clearBasket cid], c.isGetBasketCall = false := by
  intro b s args cid s1 cs1 hE hC
  constructor
  · unfold executeToolInternal
    rw [hE]
    simp [dispatchTool, hC]
  · intro c hc
    rcases List.mem_append.mp hc with h | h
    · have h2 : c = Call.createSession := by
        apply ensureSession_calls b s c
        rw [hE]
        exact h
      rw [h2]
      rfl
    · simp at h
      rw [h]
      rfl

/-- C7 witness: concrete clear_basket run on the test backend. -/
theorem clear_basket_reports_empty_basket_witness :
    executeToolInternal okBackend defaultState "clear_basket" noArgs =
      (.ok { content := ["Basket cleared"]
             structuredContent := some (.basketOnly { basketMenuItems := [], totalPrice := 0 })
             meta := none, isError := false },
       setChatId "chat1" defaultState, [Call.createSession] ++ [Call.clearBasket "chat1"]) ∧
    ∀ c ∈ [Call.createSession] ++ [Call.clearBasket "chat1"], c.isGetBasketCall = false :=
  clear_basket_reports_empty_basket okBackend defaultState noArgs "chat1"
    (setChatId "chat1" defaultState) [Call.createSession] rfl rfl
/-! ### C5 — protocol boundary converts thrown errors to isError results -/

/-- C5: the call handler forwards successful results unchanged and converts
    any thrown error into a structured result with the isError flag set and a
    text content carrying the error message; being a total function, it never
    throws itself. -/
theorem callTool_boundary_catches_errors :
    ∀ (b : Backend) (s : SessionState) (name : String) (args : RawArgs),
      (∀ r s1 cs, executeTool b s name args = (.ok r, s1, cs) →
        handleCallTool b s name args = (r, s1, cs)) ∧
      (∀ e s1 cs, executeTool b s name args = (.error e, s1, cs) →
        handleCallTool b s name args =
          ({ content := ["Error: " ++ e.message], structuredContent := none,
             meta := none, isError := true }, s1, cs)) := by
  intro b s name args
  constructor
  · intro r s1 cs h
    unfold handleCallTool
    rw [h]
  · intro e s1 cs h
    unfold handleCallTool
    rw [h]

/-- C5 witness: a thrown unknown-tool error becomes an isError result with
    the message text at the boundary. -/
theorem callTool_boundary_catches_errors_witness :
    handleCallTool okBackend defaultState "bogus" noArgs =
      ({ content := ["Error: Unknown tool: bogus"], structuredContent := none,
         meta := none, isError := true },
       setChatId "chat1" defaultState, [Call.createSession]) :=
  ((callTool_boundary_catches_errors okBackend defaultState "bogus" noArgs).2
    { message := "Unknown tool: bogus" } (setChatId "chat1" defaultState)
    [Call.createSession] rfl).trans rfl

/-! ### C2 — single-shot retry on the session-expiry marker -/

/-- The session-expiry marker error used by the witness scenarios. -/
def ctxNotFoundErr : Err := { message := "API Error (500): Call context not found" }

/-- A backend whose clearBasket rejects the stale session id only: the retry,
    made with the freshly created id, succeeds. -/
def expiryBackend : Backend :=
  { okBackend with
    createSession := .ok { chatId := "fresh", basket := none }
    clearBasket := fun cid _ =>
      if cid = "stale" then .error ctxNotFoundErr else .ok () }

/-- A backend whose clearBasket always reports the expiry marker: the single
    retry fails again and that error is final. -/
def alwaysExpireBackend : Backend :=
  { okBackend with clearBasket := fun _ _ => .error ctxNotFoundErr }

/-- A session state holding a stale session id. -/
def staleState : SessionState := { defaultState with chatId := some "stale" }

/-- C2: a successful dispatch is returned as-is; a thrown error whose (truthy)
    message contains "Call context not found" resets the stored session id to
    the empty string and re-runs the dispatch exactly once, whose outcome —
    success or error — is final; any other error propagates unchanged; and
    after the reset, ensureSession creates and stores a fresh backend session
    id. -/
theorem session_expiry_retry_once :
    ∀ (b : Backend) (s : SessionState) (name : String) (args : RawArgs),
      (∀ r s1 cs, executeToolInternal b s name args = (.ok r, s1, cs) →
        executeTool b s name args = (.ok r, s1, cs)) ∧
      (∀ e s1 cs, executeToolInternal b s name args = (.error e, s1, cs) →
        ((!e.message.isEmpty && strIncludes e.message "Call context not found") = true →
          executeTool b s name args =
            ((executeToolInternal b (setChatId "" s1) name args).1,
             (executeToolInternal b (setChatId "" s1) name args).2.1,
             cs ++ (executeToolInternal b (setChatId "" s1) name args).2.2)) ∧
        ((!e.message.isEmpty && strIncludes e.message "Call context not found") = false →
          executeTool b s name args = (.error e, s1, cs))) ∧
      (∀ csr, b.createSession = .ok csr →
        ensureSession b (setChatId "" s) =
          (.ok csr.chatId, setChatId csr.chatId (setChatId "" s), [Call.createSession])) := by
  intro b s name args
  refine ⟨fun r s1 cs h => ?_, fun e s1 cs h => ⟨fun hm => ?_, fun hm => ?_⟩,
    fun csr hcs => ?_⟩
  · unfold executeTool
    rw [h]
  · unfold executeTool
    rw [h]
    simp [hm]
  · unfold executeTool
    rw [h]
    simp [hm]
  · unfold ensureSession
    simp [setChatId, strOptFalsy, hcs]
    rfl

/-- C2 witness: on the stale session the first clear_basket throws the marker
    error; the retry (with the fresh session id) succeeds; on the
    always-failing backend the second identical failure is final. -/
theorem session_expiry_retry_once_witness :
    executeTool expiryBackend staleState "clear_basket" noArgs =
      (.ok { content := ["Basket cleared"]
             structuredContent := some (.basketOnly { basketMenuItems := [], totalPrice := 0 })
             meta := none, isError := false },
       setChatId "fresh" (setChatId "" staleState),
       [Call.clearBasket "stale", Call.createSession, Call.clearBasket "fresh"]) ∧
    executeTool alwaysExpireBackend staleState "clear_basket" noArgs =
      (.error ctxNotFoundErr,
       setChatId "chat1" (setChatId "" staleState),
       [Call.clearBasket "stale", Call.createSession, Call.clearBasket "chat1"]) :=
  ⟨(((session_expiry_retry_once expiryBackend staleState "clear_basket" noArgs).2.1
      ctxNotFoundErr staleState [Call.clearBasket "stale"] rfl).1 (by decide)).trans rfl,
   (((session_expiry_retry_once alwaysExpireBackend staleState "clear_basket" noArgs).2.1
      ctxNotFoundErr staleState [Call.clearBasket "stale"] rfl).1 (by decide)).trans rfl⟩
/-! ### C1 — submit_order is gated client-side on the auth token -/

/-- With a falsy (absent or empty) token, the submit_order branch returns the
    fixed authentication-required response without touching the backend. -/
theorem dispatch_submit_falsy (b : Backend) (cid : String) (s : SessionState)
    (cs : List Call) (args : RawArgs) (hf : strOptFalsy s.authToken = true) :
    dispatchTool b cid s cs "submit_order" args = (.ok authRequiredResponse, s, cs) := by
  rcases htok : s.authToken with _ | t
  · simp [dispatchTool, htok]
  · have ht : t.isEmpty = true := by
      rw [htok] at hf
      simpa [strOptFalsy] using hf
    simp [dispatchTool, htok, ht]

/-- One submit_order run with a falsy token: the trace holds no submitOrder
    gateway call and the auth token field is untouched. -/
theorem submit_order_internal_gate (b : Backend) (s : SessionState) (args : RawArgs)
    (hf : strOptFalsy s.authToken = true) :
    (∀ c ∈ (executeToolInternal b s "submit_order" args).2.2, c.isSubmitOrderCall = false) ∧
    (executeToolInternal b s "submit_order" args).2.1.authToken = s.authToken := by
  have hframe := ensureSession_frame b s
  have hcalls := ensureSession_calls b s
  unfold executeToolInternal
  rcases hE : ensureSession b s with ⟨r, s1, cs1⟩
  rw [hE] at hframe hcalls
  cases r with
  | error e =>
    dsimp only
    refine ⟨fun c hc => ?_, hframe.1⟩
    have hcc := hcalls c hc
    rw [hcc]
    rfl
  | ok cid =>
    dsimp only
    rw [dispatch_submit_falsy b cid s1 cs1 args (by rw [hframe.1]; exact hf)]
    refine ⟨fun c hc => ?_, hframe.1⟩
    have hcc := hcalls c hc
    rw [hcc]
    rfl

/-- C1: while the session store holds no (truthy) auth token, submit_order
    returns the successful authentication-required result — whose structured
    error field is "authentication_required" and whose widget directive is the
    login widget URI — and the backend submitOrder operation never appears in
    the trace, even across the expiry retry; with a token held, a backend
    success=false report is turned into a thrown error. -/
theorem submit_order_auth_gate :
    ∀ (b : Backend) (s : SessionState) (args : RawArgs),
      (strOptFalsy s.authToken = true →
        (∀ cid s1 cs1, ensureSession b s = (.ok cid, s1, cs1) →
          executeToolInternal b s "submit_order" args = (.ok authRequiredResponse, s1, cs1)) ∧
        authRequiredResponse.structuredContent =
          some (Structured.authRequired "authentication_required"
            "Authentication widget opened. Please log in using the form.") ∧
        (authRequiredResponse.structuredContent.map Structured.errorField) =
          some (some "authentication_required") ∧
        authRequiredResponse.meta = some LOGIN_WIDGET_URI ∧
        (∀ c ∈ (executeTool b s "submit_order" args).2.2, c.isSubmitOrderCall = false)) ∧
      (∀ t cid s1 cs1 res, s.authToken = some t → t.isEmpty = false →
        ensureSession b s = (.ok cid, s1, cs1) →
        b.submitOrder cid t args.paymentAccountId = .ok res →
        res.success = false →
        executeToolInternal b s "submit_order" args =
          (.error { message := jsOr res.error "Order submission failed" },
           s1, cs1 ++ [Call.submitOrder cid t])) := by
  intro b s args
  constructor
  · intro hf
    have hframe := ensureSession_frame b s
    refine ⟨fun cid s1 cs1 hE => ?_, rfl, rfl, rfl, ?_⟩
    · unfold executeToolInternal
      rw [hE]
      apply dispatch_submit_falsy
      rw [hE] at hframe
      rw [hframe.1]
      exact hf
    · have h1 := submit_order_internal_gate b s args hf
      unfold executeTool
      rcases hI : executeToolInternal b s "submit_order" args with ⟨r, s1, cs⟩
      rw [hI] at h1
      cases r with
      | ok res =>
        exact h1.1
      | error e =>
        by_cases hm : (!e.message.isEmpty &&
            strIncludes e.message "Call context not found") = true
        · have h2 := submit_order_internal_gate b (setChatId "" s1) args
            (by simp [setChatId] at *; rw [h1.2]; exact hf)
          simp only [hm, if_pos]
          intro c hc
          rcases List.mem_append.mp hc with hcl | hcr
          · exact h1.1 c hcl
          · exact h2.1 c hcr
        · simp only [Bool.not_eq_true] at hm
          simp only [hm, Bool.false_eq_true, if_false]
          exact h1.1
  · intro t cid s1 cs1 res htok hne hE hsub hfail
    have hframe := ensureSession_frame b s
    rw [hE] at hframe
    unfold executeToolInternal
    rw [hE]
    have hs1 : s1.authToken = some t := by rw [hframe.1]; exact htok
    simp [dispatchTool, hs1, hne, hsub, hfail]
/-- A declined submitOrder backend report: success=false with an error text. -/
def declinedResult : SubmitResult :=
  { success := false, orderId := none, leadTimePrompt := none
    error := some "Payment declined" }

/-- A backend whose submitOrder reports success=false with an error text. -/
def declinedBackend : Backend :=
  { okBackend with submitOrder := fun _ _ _ => .ok declinedResult }

/-- A session state holding a session id and a verified auth token. -/
def authedState : SessionState :=
  { chatId := some "chat2", authToken := some "tok7",
    phoneNumber := some "+3531234567", searchResults := [] }

/-- C1 witness: with no token the concrete run returns the auth-required
    response and only createSession is traced; with a token and a
    success=false backend report the run throws the reported error. -/
theorem submit_order_auth_gate_witness :
    executeToolInternal okBackend defaultState "submit_order" noArgs =
      (.ok authRequiredResponse, setChatId "chat1" defaultState, [Call.createSession]) ∧
    executeToolInternal declinedBackend authedState "submit_order" noArgs =
      (.error { message := "Payment declined" }, authedState,
       [Call.submitOrder "chat2" "tok7"]) :=
  ⟨((submit_order_auth_gate okBackend defaultState noArgs).1 rfl).1 "chat1"
     (setChatId "chat1" defaultState) [Call.createSession] rfl,
   ((submit_order_auth_gate declinedBackend authedState noArgs).2 "tok7" "chat2" authedState []
     declinedResult rfl rfl rfl rfl rfl).trans rfl⟩
/-! ### C3 — add_to_basket validates ids against a non-empty search cache only -/

/-- C3: with a non-empty last-search cache and a requested id outside it,
    add_to_basket throws the validation error enumerating the cached valid ids
    and no basket mutation is traced; with an empty cache the call skips the
    membership check entirely and proceeds to the backend mutation, any error
    then being a backend error. -/
theorem add_to_basket_cache_validation :
    ∀ (b : Backend) (s : SessionState) (args : RawArgs) (id : Int) (cid : String)
      (s1 : SessionState) (cs1 : List Call),
      args.menuItemId = some id →
      ensureSession b s = (.ok cid, s1, cs1) →
      ((0 < s.searchResults.length →
        id ∉ s.searchResults.map (fun item => item.menuItemId) →
        executeToolInternal b s "add_to_basket" args =
          (.error { message := ("Invalid menuItemId. Valid IDs: " ++
              String.intercalate ", "
                ((s.searchResults.map (fun item => item.menuItemId)).map toString)) },
           s1, cs1) ∧
        ∀ c ∈ (executeToolInternal b s "add_to_basket" args).2.2,
          c.isUpdateBasketCall = false) ∧
       (s.searchResults = [] →
        executeToolInternal b s "add_to_basket" args =
          addToBasketProceed b cid s1 cs1 id (args.quantity.getD 1)
            args.menuItemOptionSetItems ∧
        ∀ e, (addToBasketProceed b cid s1 cs1 id (args.quantity.getD 1)
            args.menuItemOptionSetItems).1 = .error e →
          b.updateBasket cid (BasketUpdate.add id (args.quantity.getD 1)
            args.menuItemOptionSetItems) (orUndef s1.authToken) = .error e ∨
          b.getBasket cid (orUndef s1.authToken) = .error e)) := by
  intro b s args id cid s1 cs1 hid hE
  have hframe := ensureSession_frame b s
  rw [hE] at hframe
  have hsr : s1.searchResults = s.searchResults := hframe.2.2
  constructor
  · intro hlen hmem
    have hmem2 : ∀ x ∈ s.searchResults, ¬ x.menuItemId = id :=
      fun x hx hxid => hmem (List.mem_map.mpr ⟨x, hx, hxid⟩)
    have heq : executeToolInternal b s "add_to_basket" args =
        (.error { message := ("Invalid menuItemId. Valid IDs: " ++
            String.intercalate ", "
              ((s.searchResults.map (fun item => item.menuItemId)).map toString)) },
         s1, cs1) := by
      unfold executeToolInternal
      rw [hE]
      simp [dispatchTool, hid, addToBasketCheck, hsr, hlen]
      rw [if_pos hmem2]
    refine ⟨heq, ?_⟩
    rw [heq]
    intro c hc
    have hcc := ensureSession_calls b s c (by rw [hE]; exact hc)
    rw [hcc]
    rfl
  · intro hempty
    constructor
    · unfold executeToolInternal
      rw [hE]
      simp [dispatchTool, hid, addToBasketCheck, hsr, hempty]
    · intro e he
      unfold addToBasketProceed at he
      dsimp only at he
      rcases hu : b.updateBasket cid (BasketUpdate.add id (args.quantity.getD 1)
          args.menuItemOptionSetItems) (orUndef s1.authToken) with eu | u
      · rw [hu] at he
        dsimp only at he
        have heu : eu = e := by injection he
        subst heu
        exact Or.inl rfl
      · rw [hu] at he
        rcases hg : b.getBasket cid (orUndef s1.authToken) with eg | bk
        · rw [hg] at he
          dsimp only at he
          have heg : eg = e := by injection he
          subst heg
          exact Or.inr rfl
        · rw [hg] at he
          simp at he
/-- A session state whose last-search cache holds the items with ids 1, 2, 3. -/
def searchedState : SessionState :=
  { chatId := some "chat1", authToken := none, phoneNumber := none,
    searchResults := [pizzaItem, burgerItem, saladItem] }

/-- Arguments requesting menu item id 4. -/
def addArgs4 : RawArgs := { noArgs with menuItemId := some 4 }

/-- C3 witness: after a search caching ids 1,2,3 the request for id 4 fails
    listing "1, 2, 3" with no backend mutation; before any search the same
    request proceeds to the backend mutation path. -/
theorem add_to_basket_cache_validation_witness :
    executeToolInternal okBackend searchedState "add_to_basket" addArgs4 =
      (.error { message := "Invalid menuItemId. Valid IDs: 1, 2, 3" }, searchedState, []) ∧
    executeToolInternal okBackend defaultState "add_to_basket" addArgs4 =
      addToBasketProceed okBackend "chat1" (setChatId "chat1" defaultState)
        [Call.createSession] 4 1 none :=
  ⟨(((add_to_basket_cache_validation okBackend searchedState addArgs4 4 "chat1" searchedState []
      rfl rfl).1 (by decide) (by decide)).1).trans rfl,
   ((add_to_basket_cache_validation okBackend defaultState addArgs4 4 "chat1"
      (setChatId "chat1" defaultState) [Call.createSession] rfl rfl).2 rfl).1⟩

/-! ### C9 — remove_from_basket never validates against the search cache -/

/-- C9: for every session state (any cache contents) and any parsed
    menuItemId, remove_from_basket forwards the removal to the backend
    updateBasket mutation — the mutation call is always in the trace — and
    any thrown error originates from the backend mutation or the re-fetch,
    never from a local id-membership rejection. -/
theorem remove_from_basket_no_cache_validation :
    ∀ (b : Backend) (s : SessionState) (args : RawArgs) (id : Int) (cid : String)
      (s1 : SessionState) (cs1 : List Call),
      args.menuItemId = some id →
      ensureSession b s = (.ok cid, s1, cs1) →
      (Call.updateBasket cid (BasketUpdate.remove id (args.quantity.getD 1)) ∈
        (executeToolInternal b s "remove_from_basket" args).2.2) ∧
      (∀ e, (executeToolInternal b s "remove_from_basket" args).1 = .error e →
        b.updateBasket cid (BasketUpdate.remove id (args.quantity.getD 1))
          (orUndef s1.authToken) = .error e ∨
        b.getBasket cid (orUndef s1.authToken) = .error e) := by
  intro b s args id cid s1 cs1 hid hE
  have heq : executeToolInternal b s "remove_from_basket" args =
      dispatchTool b cid s1 cs1 "remove_from_basket" args := by
    unfold executeToolInternal
    rw [hE]
  rw [heq]
  simp only [dispatchTool, hid]
  rcases hu : b.updateBasket cid (BasketUpdate.remove id (args.quantity.getD 1))
      (orUndef s1.authToken) with eu | u
  · refine ⟨by simp, fun e he => ?_⟩
    dsimp only at he
    have heu : eu = e := by injection he
    subst heu
    exact Or.inl rfl
  · rcases hg : b.getBasket cid (orUndef s1.authToken) with eg | bk
    · refine ⟨by simp, fun e he => ?_⟩
      dsimp only at he
      have heg : eg = e := by injection he
      subst heg
      exact Or.inr rfl
    · refine ⟨by simp, fun e he => ?_⟩
      dsimp only at he
      exact absurd he (by simp)
/-- Arguments requesting removal of menu item id 99. -/
def removeArgs99 : RawArgs := { noArgs with menuItemId := some 99 }

/-- C9 witness: with a non-empty cache {1,2,3} and the uncached id 99, the
    removal is still forwarded to the backend mutation. -/
theorem remove_from_basket_no_cache_validation_witness :
    Call.updateBasket "chat1" (BasketUpdate.remove 99 1) ∈
      (executeToolInternal okBackend searchedState "remove_from_basket" removeArgs99).2.2 :=
  (remove_from_basket_no_cache_validation okBackend searchedState removeArgs99 99 "chat1"
    searchedState [] rfl rfl).1

/-! ### C10 — ensureSession runs (and persists its id) before dispatch -/

/-- Membership of a name in the fixed tool catalog switch. -/
def isKnownTool (name : String) : Bool :=
  name = "search_menu" || name = "add_to_basket" || name = "view_basket" ||
  name = "remove_from_basket" || name = "clear_basket" || name = "submit_order" ||
  name = "send_otp" || name = "verify_otp"

/-- C10: an invocation with an unknown tool name and no stored session id
    still creates a guest backend session and persists its id before failing
    with "Unknown tool", leaving every other session-store field unchanged;
    and for any tool name at all, a createSession failure surfaces before any
    dispatch, showing ensureSession runs first. -/
theorem unknown_tool_session_side_effect :
    ∀ (b : Backend) (s : SessionState) (name : String) (args : RawArgs),
      (∀ csr, isKnownTool name = false → s.chatId = none → b.createSession = .ok csr →
        executeToolInternal b s name args =
          (.error { message := "Unknown tool: " ++ name },
           setChatId csr.chatId s, [Call.createSession]) ∧
        (setChatId csr.chatId s).chatId = some csr.chatId ∧
        (setChatId csr.chatId s).authToken = s.authToken ∧
        (setChatId csr.chatId s).phoneNumber = s.phoneNumber ∧
        (setChatId csr.chatId s).searchResults = s.searchResults) ∧
      (∀ e, s.chatId = none → b.createSession = .error e →
        executeToolInternal b s name args = (.error e, s, [Call.createSession])) := by
  intro b s name args
  constructor
  · intro csr hk hchat hcs
    have hk8 := hk
    simp only [isKnownTool, Bool.or_eq_false_iff, decide_eq_false_iff_not] at hk8
    obtain ⟨⟨⟨⟨⟨⟨⟨h1, h2⟩, h3⟩, h4⟩, h5⟩, h6⟩, h7⟩, h8⟩ := hk8
    have hEq : executeToolInternal b s name args =
        dispatchTool b csr.chatId (setChatId csr.chatId s) [Call.createSession] name args := by
      unfold executeToolInternal ensureSession
      rw [hchat, hcs]
      rfl
    rw [hEq]
    refine ⟨?_, rfl, rfl, rfl, rfl⟩
    simp [dispatchTool, h1, h2, h3, h4, h5, h6, h7, h8]
  · intro e hchat hcs
    unfold executeToolInternal ensureSession
    rw [hchat, hcs]
    rfl

/-- A backend whose session creation fails. -/
def downBackend : Backend :=
  { okBackend with createSession := .error { message := "network down" } }

/-- A session state with auth data and cache but no session id. -/
def richNoSessionState : SessionState :=
  { chatId := none, authToken := some "tokR", phoneNumber := some "+353999",
    searchResults := [pizzaItem] }

/-- C10 witness: a "get_weather" call on a fresh store persists the created
    session id, fails with Unknown tool, and leaves the other fields alone;
    with a failing createSession the error surfaces for a known tool too. -/
theorem unknown_tool_session_side_effect_witness :
    (executeToolInternal okBackend richNoSessionState "get_weather" noArgs =
      (.error { message := "Unknown tool: get_weather" },
       setChatId "chat1" richNoSessionState, [Call.createSession]) ∧
     (setChatId "chat1" richNoSessionState).chatId = some "chat1" ∧
     (setChatId "chat1" richNoSessionState).authToken = richNoSessionState.authToken ∧
     (setChatId "chat1" richNoSessionState).phoneNumber = richNoSessionState.phoneNumber ∧
     (setChatId "chat1" richNoSessionState).searchResults = richNoSessionState.searchResults) ∧
    executeToolInternal downBackend defaultState "view_basket" noArgs =
      (.error { message := "network down" }, defaultState, [Call.createSession]) :=
  ⟨(unknown_tool_session_side_effect okBackend richNoSessionState "get_weather" noArgs).1
     { chatId := "chat1", basket := none } rfl rfl rfl,
   (unknown_tool_session_side_effect downBackend defaultState "view_basket" noArgs).2
     { message := "network down" } rfl rfl⟩
/-! ### C4 — authentication atomicity -/

/-- The add_to_basket forward path never mutates the session store. -/
theorem addToBasketProceed_state (b : Backend) (cid : String) (s : SessionState)
    (cs : List Call) (id q : Int) (opts : Option (List Int)) :
    (addToBasketProceed b cid s cs id q opts).2.1 = s := by
  unfold addToBasketProceed
  dsimp only
  repeat' split
  all_goals rfl

/-- The ways a dispatch may relate the final session store to the initial one:
    unchanged, search cache replaced, or one atomic setAuthToken write. -/
def authStateShape (s s2 : SessionState) : Prop :=
  s2 = s ∨ (∃ items, s2 = setSearchResults items s) ∨ (∃ t p, s2 = setAuthToken t p s)

/-- Every dispatch leaves the session store unchanged, replaces the search
    cache, or performs one atomic setAuthToken write. -/
theorem dispatchTool_state_cases (b : Backend) (cid : String) (s : SessionState)
    (cs : List Call) (name : String) (args : RawArgs) :
    authStateShape s (dispatchTool b cid s cs name args).2.1 := by
  rcases eq_or_ne name "search_menu" with h | h1
  · subst h
    simp only [dispatchTool, reduceIte]
    repeat' (first | split | dsimp only)
    all_goals
      first
        | exact Or.inl rfl
        | exact Or.inl (addToBasketProceed_state b cid s _ _ _ _)
        | exact Or.inr (Or.inl ⟨_, rfl⟩)
        | exact Or.inr (Or.inr ⟨_, _, rfl⟩)
  rcases eq_or_ne name "add_to_basket" with h | h2
  · subst h
    simp only [dispatchTool, reduceIte]
    repeat' (first | split | dsimp only)
    all_goals
      first
        | exact Or.inl rfl
        | exact Or.inl (addToBasketProceed_state b cid s _ _ _ _)
        | exact Or.inr (Or.inl ⟨_, rfl⟩)
        | exact Or.inr (Or.inr ⟨_, _, rfl⟩)
  rcases eq_or_ne name "view_basket" with h | h3
  · subst h
    simp only [dispatchTool, reduceIte]
    repeat' (first | split | dsimp only)
    all_goals
      first
        | exact Or.inl rfl
        | exact Or.inl (addToBasketProceed_state b cid s _ _ _ _)
        | exact Or.inr (Or.inl ⟨_, rfl⟩)
        | exact Or.inr (Or.inr ⟨_, _, rfl⟩)
  rcases eq_or_ne name "remove_from_basket" with h | h4
  · subst h
    simp only [dispatchTool, reduceIte]
    repeat' (first | split | dsimp only)
    all_goals
      first
        | exact Or.inl rfl
        | exact Or.inl (addToBasketProceed_state b cid s _ _ _ _)
        | exact Or.inr (Or.inl ⟨_, rfl⟩)
        | exact Or.inr (Or.inr ⟨_, _, rfl⟩)
  rcases eq_or_ne name "clear_basket" with h | h5
  · subst h
    simp only [dispatchTool, reduceIte]
    repeat' (first | split | dsimp only)
    all_goals
      first
        | exact Or.inl rfl
        | exact Or.inl (addToBasketProceed_state b cid s _ _ _ _)
        | exact Or.inr (Or.inl ⟨_, rfl⟩)
        | exact Or.inr (Or.inr ⟨_, _, rfl⟩)
  rcases eq_or_ne name "submit_order" with h | h6
  · subst h
    simp only [dispatchTool, reduceIte]
    repeat' (first | split | dsimp only)
    all_goals
      first
        | exact Or.inl rfl
        | exact Or.inl (addToBasketProceed_state b cid s _ _ _ _)
        | exact Or.inr (Or.inl ⟨_, rfl⟩)
        | exact Or.inr (Or.inr ⟨_, _, rfl⟩)
  rcases eq_or_ne name "send_otp" with h | h7
  · subst h
    simp only [dispatchTool, reduceIte]
    repeat' (first | split | dsimp only)
    all_goals
      first
        | exact Or.inl rfl
        | exact Or.inl (addToBasketProceed_state b cid s _ _ _ _)
        | exact Or.inr (Or.inl ⟨_, rfl⟩)
        | exact Or.inr (Or.inr ⟨_, _, rfl⟩)
  rcases eq_or_ne name "verify_otp" with h | h8
  · subst h
    simp only [dispatchTool, reduceIte]
    repeat' (first | split | dsimp only)
    all_goals
      first
        | exact Or.inl rfl
        | exact Or.inl (addToBasketProceed_state b cid s _ _ _ _)
        | exact Or.inr (Or.inl ⟨_, rfl⟩)
        | exact Or.inr (Or.inr ⟨_, _, rfl⟩)
  simp only [dispatchTool, if_neg h1, if_neg h2, if_neg h3, if_neg h4, if_neg h5,
    if_neg h6, if_neg h7, if_neg h8]
  exact Or.inl rfl
/-- The invariant: token and phone number are set together or unset together. -/
def authInvariant (s : SessionState) : Prop :=
  (s.authToken = none ∧ s.phoneNumber = none) ∨
  (∃ t p, s.authToken = some t ∧ s.phoneNumber = some p)

/-- One executor run either keeps the auth pair exactly as it was or ends
    with both fields populated. -/
theorem executeToolInternal_auth_cases (b : Backend) (s : SessionState)
    (name : String) (args : RawArgs) :
    ((executeToolInternal b s name args).2.1.authToken = s.authToken ∧
     (executeToolInternal b s name args).2.1.phoneNumber = s.phoneNumber) ∨
    (∃ t p, (executeToolInternal b s name args).2.1.authToken = some t ∧
            (executeToolInternal b s name args).2.1.phoneNumber = some p) := by
  have hframe := ensureSession_frame b s
  unfold executeToolInternal
  rcases hE : ensureSession b s with ⟨r, s1, cs1⟩
  rw [hE] at hframe
  cases r with
  | error e => exact Or.inl ⟨hframe.1, hframe.2.1⟩
  | ok cid =>
    dsimp only
    have hs := dispatchTool_state_cases b cid s1 cs1 name args
    unfold authStateShape at hs
    rcases hs with h | ⟨items, h⟩ | ⟨t, p, h⟩
    · rw [h]
      exact Or.inl ⟨hframe.1, hframe.2.1⟩
    · rw [h]
      exact Or.inl ⟨hframe.1, hframe.2.1⟩
    · rw [h]
      exact Or.inr ⟨t, p, rfl, rfl⟩

/-- The retry wrapper inherits the auth dichotomy of the single run. -/
theorem executeTool_auth_cases (b : Backend) (s : SessionState)
    (name : String) (args : RawArgs) :
    ((executeTool b s name args).2.1.authToken = s.authToken ∧
     (executeTool b s name args).2.1.phoneNumber = s.phoneNumber) ∨
    (∃ t p, (executeTool b s name args).2.1.authToken = some t ∧
            (executeTool b s name args).2.1.phoneNumber = some p) := by
  have h1 := executeToolInternal_auth_cases b s name args
  unfold executeTool
  rcases hI : executeToolInternal b s name args with ⟨r, s1, cs⟩
  rw [hI] at h1
  cases r with
  | ok res => exact h1
  | error e =>
    dsimp only
    by_cases hm : (!e.message.isEmpty && strIncludes e.message "Call context not found") = true
    · simp only [hm, if_true]
      have h2 := executeToolInternal_auth_cases b (setChatId "" s1) name args
      rcases h2 with ⟨ha2, hp2⟩ | ⟨t, p, ha2, hp2⟩
      · rcases h1 with ⟨ha1, hp1⟩ | ⟨t, p, ha1, hp1⟩
        · exact Or.inl ⟨ha2.trans ha1, hp2.trans hp1⟩
        · exact Or.inr ⟨t, p, ha2.trans ha1, hp2.trans hp1⟩
      · exact Or.inr ⟨t, p, ha2, hp2⟩
    · simp only [Bool.not_eq_true] at hm
      simp only [hm, Bool.false_eq_true, if_false]
      exact h1

/-- C4: authToken and phoneNumber are set and unset atomically: clearAuth
    unsets both; a verify_otp whose backend response is unsuccessful or lacks
    a (truthy) token throws and leaves both fields and isAuthenticated
    unchanged; a successful verify_otp writes both in one setAuthToken step
    after which isAuthenticated is true; and the both-or-neither invariant is
    preserved by every tool execution. -/
theorem auth_atomicity_invariant :
    (∀ s : SessionState, (clearAuth s).authToken = none ∧
      (clearAuth s).phoneNumber = none ∧ isAuthenticated (clearAuth s) = false) ∧
    (∀ (b : Backend) (s : SessionState) (args : RawArgs) (phone code cid : String)
       (s1 : SessionState) (cs1 : List Call) (vres : VerifyResult),
      args.phoneNumber = some phone → args.code = some code →
      ensureSession b s = (.ok cid, s1, cs1) →
      b.verifyOTP phone code cid = .ok vres →
      (!vres.success || strOptFalsy vres.token) = true →
      executeToolInternal b s "verify_otp" args =
        (.error { message := jsOr vres.error "OTP verification failed" },
         s1, cs1 ++ [Call.verifyOTP phone code]) ∧
      s1.authToken = s.authToken ∧ s1.phoneNumber = s.phoneNumber ∧
      isAuthenticated s1 = isAuthenticated s) ∧
    (∀ (b : Backend) (s : SessionState) (args : RawArgs) (phone code cid t : String)
       (s1 : SessionState) (cs1 : List Call) (vres : VerifyResult),
      args.phoneNumber = some phone → args.code = some code →
      ensureSession b s = (.ok cid, s1, cs1) →
      b.verifyOTP phone code cid = .ok vres →
      vres.success = true → vres.token = some t → t.isEmpty = false →
      executeToolInternal b s "verify_otp" args =
        (.ok { content := ["Authentication successful!"]
               structuredContent := some (.authenticated true phone)
               meta := some LOGIN_WIDGET_URI, isError := false },
         setAuthToken t phone s1, cs1 ++ [Call.verifyOTP phone code]) ∧
      (setAuthToken t phone s1).authToken = some t ∧
      (setAuthToken t phone s1).phoneNumber = some phone ∧
      isAuthenticated (setAuthToken t phone s1) = true) ∧
    (∀ (b : Backend) (s : SessionState) (name : String) (args : RawArgs),
      authInvariant s → authInvariant (executeTool b s name args).2.1) := by
  refine ⟨fun s => ⟨rfl, rfl, rfl⟩, ?_, ?_, ?_⟩
  · intro b s args phone code cid s1 cs1 vres hp hc hE hv hcond
    have hframe := ensureSession_frame b s
    rw [hE] at hframe
    refine ⟨?_, hframe.1, hframe.2.1, ?_⟩
    · unfold executeToolInternal
      rw [hE]
      simp [dispatchTool, hp, hc, hv, hcond]
    · unfold isAuthenticated
      rw [hframe.1]
  · intro b s args phone code cid t s1 cs1 vres hp hc hE hv hsucc htok hne
    refine ⟨?_, rfl, rfl, ?_⟩
    · unfold executeToolInternal
      rw [hE]
      simp [dispatchTool, hp, hc, hv, hsucc, htok, strOptFalsy, hne]
    · simp [isAuthenticated, setAuthToken, strOptFalsy, hne]
  · intro b s name args hinv
    unfold authInvariant at hinv ⊢
    rcases executeTool_auth_cases b s name args with ⟨ha, hp⟩ | ⟨t, p, ha, hp⟩
    · rw [ha, hp]
      exact hinv
    · exact Or.inr ⟨t, p, ha, hp⟩
/-- A failed verifyOTP backend report: no token, an error text. -/
def badVerifyResult : VerifyResult :=
  { success := false, token := none, error := some "Invalid code" }

/-- A backend whose verifyOTP reports failure without a token. -/
def badOtpBackend : Backend :=
  { okBackend with verifyOTP := fun _ _ _ => .ok badVerifyResult }

/-- Concrete verify_otp arguments. -/
def otpArgs : RawArgs :=
  { noArgs with phoneNumber := some "+353871234", code := some "9999" }

/-- C4 witness: clearAuth unsets both fields of the authed state; the failed
    verification throws and leaves the store unauthenticated; the successful
    one writes token and phone together; the invariant holds after a run. -/
theorem auth_atomicity_invariant_witness :
    ((clearAuth authedState).authToken = none ∧ (clearAuth authedState).phoneNumber = none ∧
      isAuthenticated (clearAuth authedState) = false) ∧
    executeToolInternal badOtpBackend defaultState "verify_otp" otpArgs =
      (.error { message := "Invalid code" }, setChatId "chat1" defaultState,
       [Call.createSession, Call.verifyOTP "+353871234" "9999"]) ∧
    executeToolInternal okBackend defaultState "verify_otp" otpArgs =
      (.ok { content := ["Authentication successful!"]
             structuredContent := some (.authenticated true "+353871234")
             meta := some LOGIN_WIDGET_URI, isError := false },
       setAuthToken "tok7" "+353871234" (setChatId "chat1" defaultState),
       [Call.createSession, Call.verifyOTP "+353871234" "9999"]) ∧
    authInvariant (executeTool okBackend defaultState "verify_otp" otpArgs).2.1 :=
  ⟨auth_atomicity_invariant.1 authedState,
   ((auth_atomicity_invariant.2.1 badOtpBackend defaultState otpArgs "+353871234" "9999" "chat1"
      (setChatId "chat1" defaultState) [Call.createSession]
      badVerifyResult rfl rfl rfl rfl rfl).1).trans rfl,
   ((auth_atomicity_invariant.2.2.1 okBackend defaultState otpArgs "+353871234" "9999" "chat1"
      "tok7" (setChatId "chat1" defaultState) [Call.createSession]
      { success := true, token := some "tok7", error := none }
      rfl rfl rfl rfl rfl rfl rfl).1).trans rfl,
   auth_atomicity_invariant.2.2.2 okBackend defaultState "verify_otp" otpArgs
     (Or.inl ⟨rfl, rfl⟩)⟩
